import Mathlib

/-!
Shallow embedding of the Impact Projection Engine of
`src/advanced_impact_calculator.py` (class `AdvancedImpactCalculator`).

Python floats are modelled as real numbers; `int(...)` is truncation
toward zero; `round(x, k)` is rounding to `k` decimal digits (Python uses
round-half-to-even at exact ties; ties never arise at the points these
results are evaluated, so the half-up `round` of Mathlib is used).

The configuration record collects the instance fields that
`calculate_impact` reads.  In the source they are set in
`_calculate_baseline_metrics` / `_calculate_elasticity`:
`current_avg_monthly_spend_zc = 1088`, `current_avg_monthly_spend_non_zc
= 624`, `spend_lift_per_user = 464`, `saturation_point = 0.45`,
`adoption_speed = 0.8`, and `avg_freq_zc` (mean of a CSV column, with
documented fallback `7.3`).
-/

noncomputable section

namespace ZenoCoin

/-- Python `int(x)` on a float: truncation toward zero. -/
def pyInt (x : ℝ) : ℤ := if 0 ≤ x then ⌊x⌋ else ⌈x⌉

/-- Python `round(x, 2)`: round to two decimal digits. -/
def pyRound2 (x : ℝ) : ℝ := (round (x * 100) : ℤ) / 100

/-- Python `round(x, 1)`: round to one decimal digit. -/
def pyRound1 (x : ℝ) : ℝ := (round (x * 10) : ℤ) / 10

/-- Modelled from the spec: the value of `scipy.stats.norm.ppf(0.975)`
(the standard normal 0.975 quantile, z of the 95 percent two-sided
interval; the spec gives z as approximately 1.959964).  `scipy` is not
part of this repository, so the quantile is taken as this constant. -/
def z_score : ℝ := 1.959963985

/-- The engine configuration: the instance fields read by
`calculate_impact`. -/
structure Config where
  current_avg_monthly_spend_zc : ℝ
  current_avg_monthly_spend_non_zc : ℝ
  spend_lift_per_user : ℝ
  avg_freq_zc : ℝ
  saturation_point : ℝ
  adoption_speed : ℝ

/-- The documented configuration values from
`_calculate_baseline_metrics` and `_calculate_elasticity` (with the
documented redemption frequency 7.3). -/
def defaultConfig : Config :=
  { current_avg_monthly_spend_zc := 1088
    current_avg_monthly_spend_non_zc := 624
    spend_lift_per_user := 464
    avg_freq_zc := 7.3
    saturation_point := 0.45
    adoption_speed := 0.8 }

/-- `_apply_adoption_curve`: logistic S-curve, capped at the raw target
(`x = target_rate * 10 - 5`; `adoption = saturation_point / (1 +
exp(-adoption_speed * x))`; `min(adoption, target_rate)`). -/
def apply_adoption_curve (cfg : Config) (target_rate : ℝ) : ℝ :=
  min (cfg.saturation_point /
        (1 + Real.exp (-cfg.adoption_speed * (target_rate * 10 - 5))))
    target_rate

/-- `_calculate_incrementality`: `max(0.4, 0.75 - usage_rate * 0.3)`. -/
def calculate_incrementality (usage_rate : ℝ) : ℝ :=
  max 0.4 (0.75 - usage_rate * 0.3)

/-- `_monthly_growth_curve`: time-indexed logistic,
`min(target_rate / (1 + exp(-0.8 * (month_index - 6))), target_rate)`. -/
def monthly_growth_curve (month_index : ℕ) (target_rate : ℝ) : ℝ :=
  min (target_rate / (1 + Real.exp (-(0.8) * ((month_index : ℝ) - 6))))
    target_rate

/-- `_calculate_risk_factor`: execution risk `min(0.3, usage_rate * 0.5)`
combined with market risk 0.1 as a probabilistic OR. -/
def calculate_risk_factor (usage_rate : ℝ) : ℝ :=
  min 0.3 (usage_rate * 0.5) + 0.1 - min 0.3 (usage_rate * 0.5) * 0.1

/-- Line 131: `effective_rate = self._apply_adoption_curve
(target_usage_percent / 100)`. -/
def effective_rate (cfg : Config) (target_usage_percent : ℝ) : ℝ :=
  apply_adoption_curve cfg (target_usage_percent / 100)

/-- Line 135: `eligible_customers = total_monthly_customers * 0.8`. -/
def eligible_customers (total_monthly_customers : ℤ) : ℝ :=
  (total_monthly_customers : ℝ) * 0.8

/-- Line 138: `current_coin_users = eligible_customers * current_rate`
with `current_rate = 21.0 / 100`. -/
def current_coin_users_raw (total_monthly_customers : ℤ) : ℝ :=
  eligible_customers total_monthly_customers * (21.0 / 100)

/-- Line 139: `target_coin_users = eligible_customers * effective_rate`. -/
def target_coin_users_raw (cfg : Config) (t : ℝ) (n : ℤ) : ℝ :=
  eligible_customers n * effective_rate cfg t

/-- Line 142: `incremental_coin_users = target_coin_users -
current_coin_users` (a signed delta). -/
def incremental_coin_users_raw (cfg : Config) (t : ℝ) (n : ℤ) : ℝ :=
  target_coin_users_raw cfg t n - current_coin_users_raw n

/-- Line 162: `incremental_spend_per_user = spend_lift_per_user *
incrementality_rate`. -/
def incremental_spend_per_user_raw (cfg : Config) (t : ℝ) : ℝ :=
  cfg.spend_lift_per_user * calculate_incrementality (effective_rate cfg t)

/-- Lines 165-170: `monthly_incremental_revenue = incremental_coin_users
* incremental_spend_per_user` (both branches of the source `if` are the
same expression). -/
def monthly_incremental_revenue_raw (cfg : Config) (t : ℝ) (n : ℤ) : ℝ :=
  incremental_coin_users_raw cfg t n * incremental_spend_per_user_raw cfg t

/-- Line 179: `volume_discount = 1 - (0.1 * min(effective_rate, 0.5))`. -/
def volume_discount_raw (cfg : Config) (t : ℝ) : ℝ :=
  1 - 0.1 * min (effective_rate cfg t) 0.5

/-- Line 182: cost for the whole target population. -/
def total_monthly_cost_raw (cfg : Config) (t : ℝ) (n : ℤ) : ℝ :=
  target_coin_users_raw cfg t n * 30 * cfg.avg_freq_zc *
    volume_discount_raw cfg t

/-- Lines 185-189: `monthly_cost = incremental_coin_users *
avg_discount_per_redemption * avg_redemptions_per_user * volume_discount`
(both branches of the source `if` are the same expression). -/
def monthly_cost_raw (cfg : Config) (t : ℝ) (n : ℤ) : ℝ :=
  incremental_coin_users_raw cfg t n * 30 * cfg.avg_freq_zc *
    volume_discount_raw cfg t

/-- Line 195: `net_monthly_impact = monthly_incremental_revenue -
monthly_cost`. -/
def net_monthly_impact_raw (cfg : Config) (t : ℝ) (n : ℤ) : ℝ :=
  monthly_incremental_revenue_raw cfg t n - monthly_cost_raw cfg t n

/-- Lines 201-206: one month of the 12-month trajectory:
`month_users * incremental_spend_per_user - month_users * 30 *
avg_freq_zc * volume_discount` with `month_users = eligible_customers *
_monthly_growth_curve(month, effective_rate)`. -/
def month_impact_raw (cfg : Config) (t : ℝ) (n : ℤ) (month : ℕ) : ℝ :=
  eligible_customers n * monthly_growth_curve month (effective_rate cfg t) *
      incremental_spend_per_user_raw cfg t -
    eligible_customers n * monthly_growth_curve month (effective_rate cfg t) *
      30 * cfg.avg_freq_zc * volume_discount_raw cfg t

/-- Line 208: `annual_impact = sum(monthly_impacts)` over months 0..11. -/
def annual_impact_raw (cfg : Config) (t : ℝ) (n : ℤ) : ℝ :=
  (Finset.range 12).sum (month_impact_raw cfg t n)

/-- Payback period value: a finite number of months or the
`float(inf)` sentinel of line 213. -/
inductive Payback where
  | months (m : ℝ)
  | infinite
deriving DecidableEq

/-- The result mapping returned by `calculate_impact` (dict keys become
fields; `int(...)`-converted entries are integers). -/
structure ImpactResults where
  current_coin_users : ℤ
  target_coin_users : ℤ
  new_coin_users : ℤ
  avg_monthly_amount_per_user : ℝ
  incremental_revenue_monthly : ℝ
  monthly_cost : ℝ
  total_monthly_cost : ℝ
  net_monthly_impact : ℝ
  annual_impact : ℝ
  roi_percentage : ℝ
  payback_period_months : Payback
  customer_ltv_increase : ℝ
  revenue_confidence_lower : ℝ
  revenue_confidence_upper : ℝ
  risk_adjusted_annual_impact : ℝ
  risk_score : ℝ

/-- `calculate_impact(target_usage_percent, total_monthly_customers)`:
lines 115-229 of the source, assembled from the intermediate values
above.  The function performs no input validation and raises no error:
every input is fed through the same arithmetic.  The unused locals of
the source (`base_spend`, `lift_factor`) are omitted; they do not flow
into any result entry. -/
def calculate_impact (cfg : Config) (target_usage_percent : ℝ)
    (total_monthly_customers : ℤ) : ImpactResults :=
  let t := target_usage_percent
  let n := total_monthly_customers
  let revenue := monthly_incremental_revenue_raw cfg t n
  let cost := monthly_cost_raw cfg t n
  let net := net_monthly_impact_raw cfg t n
  let annual := annual_impact_raw cfg t n
  let risk_factor := calculate_risk_factor (effective_rate cfg t)
  { current_coin_users := pyInt (current_coin_users_raw n)
    target_coin_users := pyInt (target_coin_users_raw cfg t n)
    new_coin_users := pyInt (incremental_coin_users_raw cfg t n)
    avg_monthly_amount_per_user := pyRound2 cfg.current_avg_monthly_spend_zc
    incremental_revenue_monthly := pyRound2 revenue
    monthly_cost := pyRound2 cost
    total_monthly_cost := pyRound2 (total_monthly_cost_raw cfg t n)
    net_monthly_impact := pyRound2 net
    annual_impact := pyRound2 annual
    roi_percentage :=
      if 0 < cost then pyRound2 (annual / (cost * 12) * 100) else 0
    payback_period_months :=
      if 0 < net then Payback.months (pyRound1 (cost / net))
      else Payback.infinite
    customer_ltv_increase :=
      pyRound2 (incremental_spend_per_user_raw cfg t * 4.8)
    revenue_confidence_lower := pyRound2 (revenue - z_score * (revenue * 0.15))
    revenue_confidence_upper := pyRound2 (revenue + z_score * (revenue * 0.15))
    risk_adjusted_annual_impact := pyRound2 (annual * (1 - risk_factor))
    risk_score := pyRound1 (risk_factor * 100) }

/-! Helper lemmas about the rounding and truncation primitives. -/

lemma round_le_round_of_le {x y : ℝ} (h : x ≤ y) : round x ≤ round y := by
  rw [round_eq, round_eq]
  exact Int.floor_mono (by linarith)

lemma pyRound2_mono {x y : ℝ} (h : x ≤ y) : pyRound2 x ≤ pyRound2 y := by
  unfold pyRound2
  have hr : round (x * 100) ≤ round (y * 100) :=
    round_le_round_of_le (by nlinarith)
  have : ((round (x * 100) : ℤ) : ℝ) ≤ ((round (y * 100) : ℤ) : ℝ) := by
    exact_mod_cast hr
  linarith

lemma pyRound2_zero : pyRound2 0 = 0 := by
  unfold pyRound2
  norm_num

lemma pyRound2_close (x : ℝ) : |pyRound2 x - x| ≤ 1 / 200 := by
  unfold pyRound2
  have h := abs_sub_round (x * 100)
  rw [show ((round (x * 100) : ℤ) : ℝ) / 100 - x =
      -((x * 100 - ((round (x * 100) : ℤ) : ℝ)) / 100) by ring,
    abs_neg, abs_div, show |(100 : ℝ)| = 100 by norm_num]
  linarith

lemma pyRound2_le (x : ℝ) : pyRound2 x ≤ x + 1 / 200 := by
  have h := pyRound2_close x
  have h2 := abs_le.mp h
  linarith [h2.2]

lemma pyRound2_ge (x : ℝ) : x - 1 / 200 ≤ pyRound2 x := by
  have h := pyRound2_close x
  have h2 := abs_le.mp h
  linarith [h2.1]

lemma pyRound2_nonpos {x : ℝ} (h : x ≤ 0) : pyRound2 x ≤ 0 := by
  calc pyRound2 x ≤ pyRound2 0 := pyRound2_mono h
    _ = 0 := pyRound2_zero

lemma pyInt_of_nonneg {x : ℝ} (h : 0 ≤ x) : pyInt x = ⌊x⌋ := by
  unfold pyInt
  exact if_pos h

/-! Helper lemmas about the adoption curve. -/

lemma one_add_exp_pos (x : ℝ) : (0 : ℝ) < 1 + Real.exp x := by
  positivity

/-- The effective rate for the documented configuration, written out. -/
lemma effective_rate_default (t : ℝ) :
    effective_rate defaultConfig t =
      min ((0.45 : ℝ) /
            (1 + Real.exp (-(0.8 : ℝ) * (t / 100 * 10 - 5))))
        (t / 100) := rfl

lemma effective_rate_le_target (cfg : Config) (t : ℝ) :
    effective_rate cfg t ≤ t / 100 :=
  min_le_right _ _

lemma effective_rate_nonneg (t : ℝ) (ht : 0 ≤ t) :
    0 ≤ effective_rate defaultConfig t := by
  rw [effective_rate_default]
  refine le_min ?_ ?_
  · positivity
  · linarith

lemma effective_rate_lt_saturation (t : ℝ) :
    effective_rate defaultConfig t < 0.45 := by
  rw [effective_rate_default]
  refine lt_of_le_of_lt (min_le_left _ _) ?_
  refine div_lt_self (by norm_num) ?_
  have := Real.exp_pos (-(0.8 : ℝ) * (t / 100 * 10 - 5))
  linarith

/-- The effective rate at target 20 percent, written out. -/
lemma effective_rate_default_20 :
    effective_rate defaultConfig 20 =
      min ((0.45 : ℝ) / (1 + Real.exp 2.4)) (1 / 5) := by
  rw [effective_rate_default]
  norm_num

lemma effective_rate_20_pos : 0 < effective_rate defaultConfig 20 := by
  rw [effective_rate_default_20]
  refine lt_min ?_ (by norm_num)
  positivity

lemma effective_rate_20_le : effective_rate defaultConfig 20 ≤ 45 / 440 := by
  rw [effective_rate_default_20]
  refine le_trans (min_le_left _ _) ?_
  have hexp : (3.4 : ℝ) ≤ Real.exp 2.4 := by
    have := Real.add_one_le_exp (2.4 : ℝ)
    linarith
  have h44 : (4.4 : ℝ) ≤ 1 + Real.exp 2.4 := by linarith
  calc (0.45 : ℝ) / (1 + Real.exp 2.4) ≤ 0.45 / 4.4 :=
        div_le_div_of_nonneg_left (by norm_num) (by norm_num) h44
    _ ≤ 45 / 440 := by norm_num

/-! Numeric facts at the concrete input `target_usage_percent = 20`,
`total_monthly_customers = 20000` (a valid input whose target is below
the current 21 percent usage, so the incremental delta is negative). -/

lemma current_users_20000 : current_coin_users_raw 20000 = 3360 := by
  unfold current_coin_users_raw eligible_customers
  norm_num

lemma incremental_users_20_le :
    incremental_coin_users_raw defaultConfig 20 20000 ≤ -1723 := by
  unfold incremental_coin_users_raw target_coin_users_raw
  rw [current_users_20000]
  unfold eligible_customers
  have h := effective_rate_20_le
  push_cast
  nlinarith

lemma incremental_spend_pos_default (t : ℝ) :
    0 < incremental_spend_per_user_raw defaultConfig t := by
  unfold incremental_spend_per_user_raw calculate_incrementality
  have h : (0.4 : ℝ) ≤ max 0.4 (0.75 - effective_rate defaultConfig t * 0.3) :=
    le_max_left _ _
  have hl : defaultConfig.spend_lift_per_user = 464 := rfl
  rw [hl]
  nlinarith

lemma incremental_spend_20_lb :
    (185 : ℝ) ≤ incremental_spend_per_user_raw defaultConfig 20 := by
  unfold incremental_spend_per_user_raw calculate_incrementality
  have h : (0.4 : ℝ) ≤ max 0.4 (0.75 - effective_rate defaultConfig 20 * 0.3) :=
    le_max_left _ _
  have hl : defaultConfig.spend_lift_per_user = 464 := rfl
  rw [hl]
  nlinarith

lemma incremental_spend_20_mid :
    (464 : ℝ) * (0.75 - effective_rate defaultConfig 20 * 0.3) ≤
      incremental_spend_per_user_raw defaultConfig 20 := by
  unfold incremental_spend_per_user_raw calculate_incrementality
  have h : (0.75 - effective_rate defaultConfig 20 * 0.3 : ℝ) ≤
      max 0.4 (0.75 - effective_rate defaultConfig 20 * 0.3) :=
    le_max_right _ _
  have hl : defaultConfig.spend_lift_per_user = 464 := rfl
  rw [hl]
  nlinarith

lemma revenue_20_le :
    monthly_incremental_revenue_raw defaultConfig 20 20000 ≤ -318000 := by
  unfold monthly_incremental_revenue_raw
  have hu := incremental_users_20_le
  have hs := incremental_spend_20_lb
  nlinarith

lemma volume_discount_20_bounds :
    (0.95 : ℝ) ≤ volume_discount_raw defaultConfig 20 ∧
      volume_discount_raw defaultConfig 20 ≤ 1 := by
  unfold volume_discount_raw
  have h0 : (0 : ℝ) ≤ min (effective_rate defaultConfig 20) 0.5 :=
    le_min (le_of_lt effective_rate_20_pos) (by norm_num)
  have h5 : min (effective_rate defaultConfig 20) 0.5 ≤ (0.5 : ℝ) :=
    min_le_right _ _
  constructor <;> nlinarith

lemma cost_20_neg : monthly_cost_raw defaultConfig 20 20000 < 0 := by
  unfold monthly_cost_raw
  have hu := incremental_users_20_le
  have hv := volume_discount_20_bounds
  have hf : defaultConfig.avg_freq_zc = 7.3 := rfl
  rw [hf]
  nlinarith [hv.1, hv.2]

lemma month_impact_20_pos (m : ℕ) :
    0 < month_impact_raw defaultConfig 20 20000 m := by
  unfold month_impact_raw
  have hE0 := effective_rate_20_pos
  have hE1 := effective_rate_20_le
  have hv := volume_discount_20_bounds
  have hf : defaultConfig.avg_freq_zc = 7.3 := rfl
  have hs := incremental_spend_20_mid
  have hrate : 0 < monthly_growth_curve m (effective_rate defaultConfig 20) := by
    unfold monthly_growth_curve
    exact lt_min (div_pos hE0 (one_add_exp_pos _)) hE0
  have helig : eligible_customers 20000 = 16000 := by
    unfold eligible_customers
    norm_num
  rw [hf, helig]
  nlinarith [hv.1, hv.2, mul_pos (mul_pos (by norm_num : (0:ℝ) < 16000) hrate)
    (by nlinarith [hv.2] :
      (0 : ℝ) < incremental_spend_per_user_raw defaultConfig 20 -
        30 * 7.3 * volume_discount_raw defaultConfig 20)]

lemma annual_20_pos : 0 < annual_impact_raw defaultConfig 20 20000 := by
  unfold annual_impact_raw
  refine Finset.sum_pos (fun m _ => month_impact_20_pos m) ?_
  exact ⟨0, Finset.mem_range.mpr (by norm_num)⟩

/-! The claims. -/

/-- C2: for every target in [0,100], the effective adoption fraction
produced by the adoption-curve mapping applied to `target / 100` never
exceeds the raw target fraction `target / 100` (the `min` cap of
`_apply_adoption_curve`). -/
theorem C2_effective_rate_le_raw_target (cfg : Config) (t : ℝ)
    (h0 : 0 ≤ t) (h1 : t ≤ 100) :
    effective_rate cfg t ≤ t / 100 :=
  effective_rate_le_target cfg t

theorem C2_effective_rate_le_raw_target_witness :
    ((0 : ℝ) ≤ 40 ∧ (40 : ℝ) ≤ 100) ∧
      effective_rate defaultConfig 40 ≤ 40 / 100 :=
  ⟨⟨by norm_num, by norm_num⟩,
    C2_effective_rate_le_raw_target defaultConfig 40 (by norm_num)
      (by norm_num)⟩

/-- C3: for the engine configuration the effective adoption fraction is
monotone non-decreasing in the target: for targets `t1 ≤ t2` in [0,100]
the curve value at `t1 / 100` is at most the value at `t2 / 100`. -/
theorem C3_effective_rate_monotone (t1 t2 : ℝ) (h0 : 0 ≤ t1)
    (h12 : t1 ≤ t2) (h2 : t2 ≤ 100) :
    effective_rate defaultConfig t1 ≤ effective_rate defaultConfig t2 := by
  rw [effective_rate_default, effective_rate_default]
  refine min_le_min ?_ (by linarith)
  have harg : -(0.8 : ℝ) * (t2 / 100 * 10 - 5) ≤
      -(0.8 : ℝ) * (t1 / 100 * 10 - 5) := by nlinarith
  have hexp := Real.exp_le_exp.mpr harg
  exact div_le_div_of_nonneg_left (by norm_num) (one_add_exp_pos _)
    (by linarith)

theorem C3_effective_rate_monotone_witness :
    ((0 : ℝ) ≤ 20 ∧ (20 : ℝ) ≤ 40 ∧ (40 : ℝ) ≤ 100) ∧
      effective_rate defaultConfig 20 ≤ effective_rate defaultConfig 40 :=
  ⟨⟨by norm_num, by norm_num, by norm_num⟩,
    C3_effective_rate_monotone 20 40 (by norm_num) (by norm_num)
      (by norm_num)⟩

/-- C5 (amended): `roi_percentage` equals the rounded
`annual_impact / (monthly_cost * 12) * 100` when the incremental
monthly cost is strictly positive, and equals the sentinel 0 whenever
the incremental monthly cost is zero or negative; no division is
performed in the latter case. -/
theorem C5_roi_guard (cfg : Config) (t : ℝ) (n : ℤ) :
    (calculate_impact cfg t n).roi_percentage =
      if 0 < monthly_cost_raw cfg t n then
        pyRound2 (annual_impact_raw cfg t n /
          (monthly_cost_raw cfg t n * 12) * 100)
      else 0 := rfl

/-- C5 (counterexample to the claim as stated): at the valid input
`target_usage_percent = 20`, `total_monthly_customers = 20000` the
incremental monthly cost is nonzero (it is negative), yet
`roi_percentage` is the sentinel 0 and differs from
`annual_impact / (cost * 12) * 100`, which is strictly negative. -/
theorem C5_roi_nonzero_cost_counterexample :
    monthly_cost_raw defaultConfig 20 20000 ≠ 0 ∧
      (calculate_impact defaultConfig 20 20000).roi_percentage ≠
        annual_impact_raw defaultConfig 20 20000 /
          (monthly_cost_raw defaultConfig 20 20000 * 12) * 100 := by
  have hc := cost_20_neg
  have ha := annual_20_pos
  refine ⟨ne_of_lt hc, ?_⟩
  have hroi : (calculate_impact defaultConfig 20 20000).roi_percentage = 0 := by
    show (if 0 < monthly_cost_raw defaultConfig 20 20000 then
      pyRound2 (annual_impact_raw defaultConfig 20 20000 /
        (monthly_cost_raw defaultConfig 20 20000 * 12) * 100)
      else 0) = 0
    exact if_neg (not_lt.mpr (le_of_lt hc))
  rw [hroi]
  have h12 : monthly_cost_raw defaultConfig 20 20000 * 12 < 0 := by linarith
  have hdiv := div_neg_of_pos_of_neg ha h12
  have hform : annual_impact_raw defaultConfig 20 20000 /
      (monthly_cost_raw defaultConfig 20 20000 * 12) * 100 < 0 := by
    nlinarith
  exact ne_of_gt hform

/-- C6: `payback_period_months` is the rounded
`monthly_cost / net_monthly_impact` when the net monthly impact is
strictly positive, and the infinite sentinel otherwise — in particular
a zero net monthly impact takes the sentinel branch and performs no
division. -/
theorem C6_payback_guard (cfg : Config) (t : ℝ) (n : ℤ) :
    (calculate_impact cfg t n).payback_period_months =
      if 0 < net_monthly_impact_raw cfg t n then
        Payback.months (pyRound1 (monthly_cost_raw cfg t n /
          net_monthly_impact_raw cfg t n))
      else Payback.infinite := rfl

/-- C7: with the documented configuration (spend lift 464 ≥ 0), whenever
the capped effective rate puts the target user count below the current
user count, the signed incremental user delta is negative and the
reported incremental monthly revenue is at most 0. -/
theorem C7_sign_consistency (t : ℝ) (n : ℤ)
    (h : target_coin_users_raw defaultConfig t n < current_coin_users_raw n) :
    incremental_coin_users_raw defaultConfig t n < 0 ∧
      (calculate_impact defaultConfig t n).incremental_revenue_monthly ≤ 0 := by
  have hincr : incremental_coin_users_raw defaultConfig t n < 0 := by
    unfold incremental_coin_users_raw
    linarith
  refine ⟨hincr, ?_⟩
  show pyRound2 (monthly_incremental_revenue_raw defaultConfig t n) ≤ 0
  apply pyRound2_nonpos
  unfold monthly_incremental_revenue_raw
  exact le_of_lt
    (mul_neg_of_neg_of_pos hincr (incremental_spend_pos_default t))

theorem C7_sign_consistency_witness :
    (target_coin_users_raw defaultConfig 20 20000 <
        current_coin_users_raw 20000) ∧
      incremental_coin_users_raw defaultConfig 20 20000 < 0 ∧
      (calculate_impact defaultConfig 20 20000).incremental_revenue_monthly
        ≤ 0 := by
  have h : target_coin_users_raw defaultConfig 20 20000 <
      current_coin_users_raw 20000 := by
    have hu := incremental_users_20_le
    unfold incremental_coin_users_raw at hu
    linarith
  exact ⟨h, C7_sign_consistency 20 20000 h⟩

/-- C8: `calculate_impact` is a pure function of its configuration and
arguments: two calls with identical inputs return identical result
mappings (there is no randomness and no state in the projection path,
which the embedding reflects by being a function). -/
theorem C8_deterministic (cfg : Config) (t1 t2 : ℝ) (n1 n2 : ℤ)
    (ht : t1 = t2) (hn : n1 = n2) :
    calculate_impact cfg t1 n1 = calculate_impact cfg t2 n2 := by
  rw [ht, hn]

theorem C8_deterministic_witness :
    ((40 : ℝ) = 40 ∧ (20000 : ℤ) = 20000) ∧
      calculate_impact defaultConfig 40 20000 =
        calculate_impact defaultConfig 40 20000 :=
  ⟨⟨rfl, rfl⟩, C8_deterministic defaultConfig 40 40 20000 20000 rfl rfl⟩

/-- C1 (counterexample to the claim as stated): the engine raises no
error on invalid input.  At `target_usage_percent = 150` (outside
[0,100]) and at `total_monthly_customers = -5` (non-positive) the call
runs the ordinary arithmetic to completion and returns a full result
mapping, exhibited here through its `current_coin_users` entry. -/
theorem C1_invalid_input_counterexample :
    (calculate_impact defaultConfig 150 20000).current_coin_users = 3360 ∧
      (calculate_impact defaultConfig 40 (-5)).current_coin_users = 0 := by
  constructor
  · show pyInt (current_coin_users_raw 20000) = 3360
    rw [current_users_20000, pyInt_of_nonneg (by norm_num)]
    norm_num
  · show pyInt (current_coin_users_raw (-5)) = 0
    have h : current_coin_users_raw (-5) = -0.84 := by
      unfold current_coin_users_raw eligible_customers
      norm_num
    rw [h]
    unfold pyInt
    rw [if_neg (by norm_num)]
    norm_num

/-- C1 (amended): `calculate_impact` performs no input validation: for
any `target_usage_percent` outside [0,100] or non-positive
`total_monthly_customers` it raises no error and returns a complete
result computed by the same formulas as for valid input (the inputs are
not clamped either; only the adoption-curve `min` cap applies). -/
theorem C1_no_validation (t : ℝ) (n : ℤ)
    (h : t < 0 ∨ 100 < t ∨ n ≤ 0) :
    (calculate_impact defaultConfig t n).current_coin_users =
        pyInt (current_coin_users_raw n) ∧
      (calculate_impact defaultConfig t n).target_coin_users =
        pyInt (target_coin_users_raw defaultConfig t n) ∧
      (calculate_impact defaultConfig t n).incremental_revenue_monthly =
        pyRound2 (monthly_incremental_revenue_raw defaultConfig t n) := by
  exact ⟨rfl, rfl, rfl⟩

theorem C1_no_validation_witness :
    ((150 : ℝ) < 0 ∨ (100 : ℝ) < 150 ∨ (20000 : ℤ) ≤ 0) ∧
      ((calculate_impact defaultConfig 150 20000).current_coin_users =
          pyInt (current_coin_users_raw 20000) ∧
        (calculate_impact defaultConfig 150 20000).target_coin_users =
          pyInt (target_coin_users_raw defaultConfig 150 20000) ∧
        (calculate_impact defaultConfig 150 20000).incremental_revenue_monthly
          = pyRound2 (monthly_incremental_revenue_raw defaultConfig 150
              20000)) :=
  ⟨Or.inr (Or.inl (by norm_num)),
    C1_no_validation 150 20000 (Or.inr (Or.inl (by norm_num)))⟩

/-- C4 (behavior at the failing input): at the valid input
`target_usage_percent = 20`, `total_monthly_customers = 20000` the
monthly incremental revenue is negative, and because the code computes
the standard deviation as `0.15 * revenue` without an absolute value,
the reported confidence bounds are inverted: the upper bound lies
strictly below the reported mean and the lower bound strictly above it,
contradicting `lower ≤ mean ≤ upper`. -/
theorem C4_confidence_bounds_inverted :
    (calculate_impact defaultConfig 20 20000).revenue_confidence_upper <
        (calculate_impact defaultConfig 20 20000).incremental_revenue_monthly
      ∧ (calculate_impact defaultConfig 20 20000).incremental_revenue_monthly
        < (calculate_impact defaultConfig 20 20000).revenue_confidence_lower
      := by
  have hm := revenue_20_le
  have hz : z_score = 1.959963985 := rfl
  constructor
  · show pyRound2 (monthly_incremental_revenue_raw defaultConfig 20 20000 +
        z_score * (monthly_incremental_revenue_raw defaultConfig 20 20000 *
          0.15)) <
      pyRound2 (monthly_incremental_revenue_raw defaultConfig 20 20000)
    rw [hz]
    have h1 := pyRound2_le (monthly_incremental_revenue_raw defaultConfig 20
      20000 + z_score * (monthly_incremental_revenue_raw defaultConfig 20
        20000 * 0.15))
    have h2 := pyRound2_ge (monthly_incremental_revenue_raw defaultConfig 20
      20000)
    rw [hz] at h1
    nlinarith
  · show pyRound2 (monthly_incremental_revenue_raw defaultConfig 20 20000) <
      pyRound2 (monthly_incremental_revenue_raw defaultConfig 20 20000 -
        z_score * (monthly_incremental_revenue_raw defaultConfig 20 20000 *
          0.15))
    rw [hz]
    have h1 := pyRound2_le (monthly_incremental_revenue_raw defaultConfig 20
      20000)
    have h2 := pyRound2_ge (monthly_incremental_revenue_raw defaultConfig 20
      20000 - z_score * (monthly_incremental_revenue_raw defaultConfig 20
        20000 * 0.15))
    rw [hz] at h2
    nlinarith

/-- C9: with the documented configuration and the documented scenario
(`totalMonthlyCustomers = 20000`, `targetUsagePercent = 40`), the result
reports exactly 3360 current coin users, and the target coin users do
not exceed 6400 because the capped S-curve keeps the effective rate at
or below the raw 40 percent. -/
theorem C9_documented_scenario :
    (calculate_impact defaultConfig 40 20000).current_coin_users = 3360 ∧
      (calculate_impact defaultConfig 40 20000).target_coin_users ≤ 6400 := by
  constructor
  · show pyInt (current_coin_users_raw 20000) = 3360
    rw [current_users_20000, pyInt_of_nonneg (by norm_num)]
    norm_num
  · show pyInt (target_coin_users_raw defaultConfig 40 20000) ≤ 6400
    have heff0 : 0 ≤ effective_rate defaultConfig 40 :=
      effective_rate_nonneg 40 (by norm_num)
    have heff1 : effective_rate defaultConfig 40 ≤ 40 / 100 :=
      effective_rate_le_target defaultConfig 40
    have h0 : 0 ≤ target_coin_users_raw defaultConfig 40 20000 := by
      unfold target_coin_users_raw eligible_customers
      positivity
    have hle : target_coin_users_raw defaultConfig 40 20000 ≤ (6400 : ℝ) := by
      unfold target_coin_users_raw eligible_customers
      push_cast
      nlinarith
    rw [pyInt_of_nonneg h0]
    calc ⌊target_coin_users_raw defaultConfig 40 20000⌋
        ≤ ⌊(6400 : ℝ)⌋ := Int.floor_mono hle
      _ = 6400 := by norm_num

/-- C10: for every target in [0,100] the effective adoption rate stays
strictly below the saturation point 0.45 (the logistic denominator
exceeds 1), and consequently for a positive customer count the reported
target coin users stay strictly below 0.45 times the eligible
population. -/
theorem C10_saturation_strict_ceiling (t : ℝ) (n : ℤ)
    (h0 : 0 ≤ t) (h1 : t ≤ 100) (hn : 0 < n) :
    effective_rate defaultConfig t < 0.45 ∧
      (((calculate_impact defaultConfig t n).target_coin_users : ℝ) <
        0.45 * ((n : ℝ) * 0.8)) := by
  have hlt := effective_rate_lt_saturation t
  refine ⟨hlt, ?_⟩
  show ((pyInt (target_coin_users_raw defaultConfig t n) : ℤ) : ℝ) <
    0.45 * ((n : ℝ) * 0.8)
  have heff0 := effective_rate_nonneg t h0
  have hnR : (0 : ℝ) < (n : ℝ) := by exact_mod_cast hn
  have h0raw : 0 ≤ target_coin_users_raw defaultConfig t n := by
    unfold target_coin_users_raw eligible_customers
    positivity
  have hraw : target_coin_users_raw defaultConfig t n <
      0.45 * ((n : ℝ) * 0.8) := by
    unfold target_coin_users_raw eligible_customers
    nlinarith
  rw [pyInt_of_nonneg h0raw]
  calc ((⌊target_coin_users_raw defaultConfig t n⌋ : ℤ) : ℝ)
      ≤ target_coin_users_raw defaultConfig t n :=
        Int.floor_le _
    _ < 0.45 * ((n : ℝ) * 0.8) := hraw

theorem C10_saturation_strict_ceiling_witness :
    ((0 : ℝ) ≤ 100 ∧ (100 : ℝ) ≤ 100 ∧ (0 : ℤ) < 20000) ∧
      (effective_rate defaultConfig 100 < 0.45 ∧
        (((calculate_impact defaultConfig 100 20000).target_coin_users : ℝ) <
          0.45 * ((20000 : ℤ) * 0.8))) :=
  ⟨⟨by norm_num, by norm_num, by norm_num⟩,
    C10_saturation_strict_ceiling 100 20000 (by norm_num) (by norm_num)
      (by norm_num)⟩

end ZenoCoin

end
